import Mathlib

/-!
Verification of the retention-sweep Lambda handlers.

The repository holds five independent AWS Lambda handlers written in Python.
This file gives a shallow embedding of the parts the claims are about:

* `A02` — `assignment_02_lambda_function.py` (S3 retention cleanup handler);
* `Vijay` — `vijay-s3-cleanup/lambda_function.py` (near-duplicate S3 cleanup);
* `A04` — `assignment_04_lambda_function.py` (EBS snapshot create + cleanup);
* `A01` — `assignment_01_lambda_function.py` (EC2 tag-based start/stop).

Modelling conventions:
* timestamps are `Int` seconds since the epoch (the Python code compares
  float timestamps / datetimes; all claims are order-theoretic, so the
  integer model preserves them, and the float-valued `age_days` reporting
  fields, used only for display, are omitted from result entries);
* provider calls are recorded in an explicit trace (`List String`), one
  entry per API invocation, so that "never contacts the provider" is a
  statement about the trace;
* fallible provider deletes are a function `String → Option String`
  (`none` = success, `some e` = the exception text/code raised);
* Python string primitives that the handlers use (`lower`, `strip`,
  `split(',')`, `str(bool)`) are embedded as kernel-reducible functions
  over the character list.
-/

/-- Python `str.lower()` over the underlying characters. -/
def pyLower (s : String) : String := String.mk (s.data.map Char.toLower)

/-- Python `str(b)` for a boolean: `"True"` or `"False"`. -/
def pyBoolStr (b : Bool) : String := if b then "True" else "False"

/-- Python `str.strip()`: drop leading and trailing whitespace. -/
def pyStrip (s : String) : String :=
  String.mk (((s.data.dropWhile Char.isWhitespace).reverse.dropWhile Char.isWhitespace).reverse)

/-- Helper for `pySplitComma`: split a character list at every comma. -/
def pySplitCommaAux : List Char → List (List Char)
  | [] => [[]]
  | c :: cs =>
    if c = ',' then [] :: pySplitCommaAux cs
    else
      match pySplitCommaAux cs with
      | [] => [[c]]
      | chunk :: rest => (c :: chunk) :: rest

/-- Python `str.split(',')`; in particular `"".split(',') = [""]`. -/
def pySplitComma (s : String) : List String := (pySplitCommaAux s.data).map String.mk

/-- Environment variables read by the handlers (`None` = unset).
`RETENTION_DAYS` is modelled already parsed by Python's `int(...)`.
The snapshot description scoping variable of assignment_04 is
`SNAPSHOT_DESCRIPTION_PFX` here. -/
structure EnvVars where
  BUCKET_NAME : Option String
  RETENTION_DAYS : Option Int
  DRY_RUN : Option String
  VOLUME_IDS : Option String
  SNAPSHOT_DESCRIPTION_PFX : Option String
  SNS_TOPIC_ARN : Option String
deriving Repr, DecidableEq

/-- Invocation event payload fields the handlers read (`None` = absent). -/
structure Event where
  bucket_name : Option String
  retention_days : Option Int
  dry_run : Option Bool
  volume_ids : Option String
deriving Repr, DecidableEq

/-- One object of an S3 listing page (`Key`, `LastModified`, `Size`). -/
structure S3Object where
  key : String
  lastModified : Int
  size : Nat
deriving Repr, DecidableEq

/-- The S3 collaborator state: whether the configured bucket exists and the
pages `list_objects_v2` would deliver for it. -/
structure S3World where
  bucketExists : Bool
  pages : List (List S3Object)
deriving Repr, DecidableEq

/-- Action recorded with a reported record. -/
inductive FileAction where
  | deleted
  | would_delete
deriving Repr, DecidableEq

namespace A02

/-- One entry of `results['deleted_files']` in assignment_02
(the float `age_days` display field is omitted). -/
structure Entry where
  key : String
  size_bytes : Nat
  last_modified : Int
  action : FileAction
deriving Repr, DecidableEq

/-- The `results` accumulator dictionary of assignment_02 (lines 39-48),
restricted to the mutable counting/reporting fields. -/
structure Results where
  files_processed : Nat
  files_deleted : Nat
  total_size_deleted : Nat
  deleted_files : List Entry
  errors : List String
deriving Repr, DecidableEq

/-- Initial `results` value (all counters zero, lists empty). -/
def initResults : Results := ⟨0, 0, 0, [], []⟩

/-- Body of the per-object loop of assignment_02 (lines 76-122), acting on
the pair (results, provider-call trace). `del` is the outcome of
`s3.delete_object` per key. -/
def process_object (cutoff : Int) (dryRun : Bool) (del : String → Option String)
    (s : Results × List String) (o : S3Object) : Results × List String :=
  let r := { s.1 with files_processed := s.1.files_processed + 1 }
  if o.lastModified < cutoff then
    if dryRun then
      ({ r with deleted_files :=
          r.deleted_files ++ [⟨o.key, o.size, o.lastModified, FileAction.would_delete⟩] }, s.2)
    else
      match del o.key with
      | none =>
        ({ r with
            files_deleted := r.files_deleted + 1,
            total_size_deleted := r.total_size_deleted + o.size,
            deleted_files :=
              r.deleted_files ++ [⟨o.key, o.size, o.lastModified, FileAction.deleted⟩] },
         s.2 ++ ["delete_object " ++ o.key])
      | some e =>
        ({ r with errors := r.errors ++ ["Failed to delete " ++ o.key ++ ": " ++ e] },
         s.2 ++ ["delete_object " ++ o.key])
  else (r, s.2)

/-- The paginated sweep of assignment_02 (lines 74-122): fold the per-object
step over every page of the listing. -/
def run (cutoff : Int) (dryRun : Bool) (del : String → Option String)
    (pages : List (List S3Object)) : Results × List String :=
  pages.foldl (fun s page => page.foldl (process_object cutoff dryRun del) s) (initResults, [])

/-- Expiry test of line 85: strictly older than the cutoff. -/
def expiredB (cutoff : Int) (o : S3Object) : Bool := decide (o.lastModified < cutoff)

/-- Whether the modelled `delete_object` succeeds on this object's key. -/
def okB (del : String → Option String) (o : S3Object) : Bool := (del o.key).isNone

/-- Report entry appended in dry-run mode (lines 90-96). -/
def wEntry (o : S3Object) : Entry := ⟨o.key, o.size, o.lastModified, FileAction.would_delete⟩

/-- Report entry appended after a successful delete (lines 105-111). -/
def dEntry (o : S3Object) : Entry := ⟨o.key, o.size, o.lastModified, FileAction.deleted⟩

/-- Error string appended when `delete_object` raises (lines 115-118). -/
def errMsg (del : String → Option String) (o : S3Object) : String :=
  "Failed to delete " ++ o.key ++ ": " ++ ((del o.key).getD "")

/-- The sweep over pages equals the sweep over the flattened listing. -/
theorem run_eq_flat (cutoff : Int) (dryRun : Bool) (del : String → Option String)
    (pages : List (List S3Object)) :
    run cutoff dryRun del pages
      = pages.flatten.foldl (process_object cutoff dryRun del) (initResults, []) := by
  rw [run, List.foldl_flatten]

theorem foldl_files_processed (cutoff : Int) (dryRun : Bool) (del : String → Option String)
    (objs : List S3Object) :
    ∀ s, (objs.foldl (process_object cutoff dryRun del) s).1.files_processed
      = s.1.files_processed + objs.length := by
  induction objs with
  | nil => intro s; simp
  | cons o t ih =>
    intro s
    rw [List.foldl_cons, ih]
    by_cases h : o.lastModified < cutoff
    · cases dryRun
      · cases hd : del o.key <;>
          simp [process_object, h, hd] <;> omega
      · simp [process_object, h]
        omega
    · simp [process_object, h]
      omega

theorem foldl_files_deleted (cutoff : Int) (dryRun : Bool) (del : String → Option String)
    (objs : List S3Object) :
    ∀ s, (objs.foldl (process_object cutoff dryRun del) s).1.files_deleted
      = s.1.files_deleted
        + (if dryRun then 0 else ((objs.filter (expiredB cutoff)).filter (okB del)).length) := by
  induction objs with
  | nil => intro s; cases dryRun <;> simp
  | cons o t ih =>
    intro s
    rw [List.foldl_cons, ih]
    by_cases h : o.lastModified < cutoff
    · cases dryRun
      · cases hd : del o.key <;>
          simp [process_object, h, hd, expiredB, okB, List.filter_cons] <;> omega
      · simp [process_object, h, expiredB, okB, List.filter_cons]
    · simp [process_object, h, expiredB, List.filter_cons]

theorem foldl_total_size (cutoff : Int) (dryRun : Bool) (del : String → Option String)
    (objs : List S3Object) :
    ∀ s, (objs.foldl (process_object cutoff dryRun del) s).1.total_size_deleted
      = s.1.total_size_deleted
        + (if dryRun then 0
           else (((objs.filter (expiredB cutoff)).filter (okB del)).map S3Object.size).sum) := by
  induction objs with
  | nil => intro s; cases dryRun <;> simp
  | cons o t ih =>
    intro s
    rw [List.foldl_cons, ih]
    by_cases h : o.lastModified < cutoff
    · cases dryRun
      · cases hd : del o.key <;>
          simp [process_object, h, hd, expiredB, okB, List.filter_cons] <;> omega
      · simp [process_object, h, expiredB, okB, List.filter_cons]
    · simp [process_object, h, expiredB, List.filter_cons]

theorem foldl_deleted_files (cutoff : Int) (dryRun : Bool) (del : String → Option String)
    (objs : List S3Object) :
    ∀ s, (objs.foldl (process_object cutoff dryRun del) s).1.deleted_files
      = s.1.deleted_files
        ++ (if dryRun then (objs.filter (expiredB cutoff)).map wEntry
            else ((objs.filter (expiredB cutoff)).filter (okB del)).map dEntry) := by
  induction objs with
  | nil => intro s; cases dryRun <;> simp
  | cons o t ih =>
    intro s
    rw [List.foldl_cons, ih]
    by_cases h : o.lastModified < cutoff
    · cases dryRun
      · cases hd : del o.key <;>
          simp [process_object, h, hd, expiredB, okB, wEntry, dEntry, List.filter_cons]
      · simp [process_object, h, expiredB, okB, wEntry, dEntry, List.filter_cons]
    · simp [process_object, h, expiredB, List.filter_cons]

theorem foldl_errors (cutoff : Int) (dryRun : Bool) (del : String → Option String)
    (objs : List S3Object) :
    ∀ s, (objs.foldl (process_object cutoff dryRun del) s).1.errors
      = s.1.errors
        ++ (if dryRun then []
            else ((objs.filter (expiredB cutoff)).filter (fun o => (del o.key).isSome)).map
              (errMsg del)) := by
  induction objs with
  | nil => intro s; cases dryRun <;> simp
  | cons o t ih =>
    intro s
    rw [List.foldl_cons, ih]
    by_cases h : o.lastModified < cutoff
    · cases dryRun
      · cases hd : del o.key <;>
          simp [process_object, h, hd, expiredB, errMsg, List.filter_cons]
      · simp [process_object, h, expiredB, List.filter_cons]
    · simp [process_object, h, expiredB, List.filter_cons]

theorem foldl_calls (cutoff : Int) (dryRun : Bool) (del : String → Option String)
    (objs : List S3Object) :
    ∀ s, (objs.foldl (process_object cutoff dryRun del) s).2
      = s.2 ++ (if dryRun then []
                else (objs.filter (expiredB cutoff)).map (fun o => "delete_object " ++ o.key)) := by
  induction objs with
  | nil => intro s; cases dryRun <;> simp
  | cons o t ih =>
    intro s
    rw [List.foldl_cons, ih]
    by_cases h : o.lastModified < cutoff
    · cases dryRun
      · cases hd : del o.key <;>
          simp [process_object, h, hd, expiredB, List.filter_cons]
      · simp [process_object, h, expiredB, List.filter_cons]
    · simp [process_object, h, expiredB, List.filter_cons]

/-- Dry-run resolution of assignment_02 line 20:
`os.environ.get('DRY_RUN', 'false').lower() == 'true'` — the fallback is the
constant string `'false'`; the event payload is not consulted. -/
def DRY_RUN_value (env : EnvVars) : Bool := pyLower (env.DRY_RUN.getD "false") == "true"

/-- Handler return value: status code, the provider-call trace, and the
`results` accumulator at return time. -/
structure Output where
  statusCode : Nat
  calls : List String
  results : Results
deriving Repr, DecidableEq

/-- The assignment_02 handler (lines 12-161).  `head_bucket` is modelled as
raising a 404 `ClientError` exactly when the bucket is absent, which the
handler converts to `statusCode` 404 (lines 52-62); a paginated listing
records one `list_objects_v2` call per page. -/
def lambda_handler (env : EnvVars) (event : Event) (now : Int) (w : S3World)
    (del : String → Option String) : Output :=
  let bucket := env.BUCKET_NAME.getD (event.bucket_name.getD "")
  let retention := env.RETENTION_DAYS.getD (event.retention_days.getD 30)
  let dryRun := DRY_RUN_value env
  if bucket == "" then ⟨400, [], initResults⟩
  else if w.bucketExists then
    let cutoff := now - retention * 86400
    let out := run cutoff dryRun del w.pages
    ⟨200, "head_bucket" :: (w.pages.map (fun _ => "list_objects_v2") ++ out.2), out.1⟩
  else ⟨404, ["head_bucket"], initResults⟩

end A02

namespace Vijay

/-- The accumulator variables of the vijay-s3-cleanup handler (lines 34-36):
`deleted_files` collects keys (of would-be or actual deletions),
`total_size_deleted` their sizes, `error_count` failed deletions. -/
structure Results where
  deleted_files : List String
  total_size_deleted : Nat
  error_count : Nat
deriving Repr, DecidableEq

/-- Initial accumulator values. -/
def initResults : Results := ⟨[], 0, 0⟩

/-- Body of the per-object loop of vijay-s3-cleanup (lines 47-66). -/
def process_object (cutoff : Int) (dryRun : Bool) (del : String → Option String)
    (s : Results × List String) (o : S3Object) : Results × List String :=
  if o.lastModified < cutoff then
    if dryRun then
      ({ s.1 with
          deleted_files := s.1.deleted_files ++ [o.key],
          total_size_deleted := s.1.total_size_deleted + o.size }, s.2)
    else
      match del o.key with
      | none =>
        ({ s.1 with
            deleted_files := s.1.deleted_files ++ [o.key],
            total_size_deleted := s.1.total_size_deleted + o.size },
         s.2 ++ ["delete_object " ++ o.key])
      | some _ =>
        ({ s.1 with error_count := s.1.error_count + 1 },
         s.2 ++ ["delete_object " ++ o.key])
  else s

/-- The paginated sweep of vijay-s3-cleanup (lines 43-66). -/
def run (cutoff : Int) (dryRun : Bool) (del : String → Option String)
    (pages : List (List S3Object)) : Results × List String :=
  pages.foldl (fun s page => page.foldl (process_object cutoff dryRun del) s) (initResults, [])

/-- The `files_processed` field of the response (line 80):
`len(deleted_files)`, not a count of all listed objects. -/
def files_processed (r : Results) : Nat := r.deleted_files.length

/-- Dry-run resolution of vijay-s3-cleanup line 20:
`os.environ.get('DRY_RUN', str(event.get('dry_run', True))).lower() == 'true'`. -/
def DRY_RUN_value (env : EnvVars) (event : Event) : Bool :=
  pyLower (env.DRY_RUN.getD (pyBoolStr (event.dry_run.getD true))) == "true"

/-- Handler return value. -/
structure Output where
  statusCode : Nat
  calls : List String
  results : Results
deriving Repr, DecidableEq

/-- The vijay-s3-cleanup handler (lines 11-91).  There is no bucket
existence check: when the bucket is absent the first listing call raises
inside the `try`, and the generic handler returns 500 (lines 68-73).
Python's falsy test `if not bucket_name` accepts both `None` and `''`. -/
def lambda_handler (env : EnvVars) (event : Event) (now : Int) (w : S3World)
    (del : String → Option String) : Output :=
  let bucket := (env.BUCKET_NAME.or event.bucket_name).getD ""
  let retention := env.RETENTION_DAYS.getD (event.retention_days.getD 30)
  let dryRun := DRY_RUN_value env event
  if bucket == "" then ⟨400, [], initResults⟩
  else if w.bucketExists then
    let cutoff := now - retention * 86400
    let out := run cutoff dryRun del w.pages
    ⟨200, w.pages.map (fun _ => "list_objects_v2") ++ out.2, out.1⟩
  else ⟨500, ["list_objects_v2"], initResults⟩

theorem run_flat (cutoff : Int) (dryRun : Bool) (del : String → Option String)
    (pages : List (List S3Object)) :
    run cutoff dryRun del pages
      = pages.flatten.foldl (process_object cutoff dryRun del) (initResults, []) := by
  rw [run, List.foldl_flatten]

theorem foldl_keys (cutoff : Int) (dryRun : Bool) (del : String → Option String)
    (objs : List S3Object) :
    ∀ s, (objs.foldl (process_object cutoff dryRun del) s).1.deleted_files
      = s.1.deleted_files
        ++ (if dryRun then (objs.filter (A02.expiredB cutoff)).map S3Object.key
            else ((objs.filter (A02.expiredB cutoff)).filter (A02.okB del)).map S3Object.key) := by
  induction objs with
  | nil => intro s; cases dryRun <;> simp
  | cons o t ih =>
    intro s
    rw [List.foldl_cons, ih]
    by_cases h : o.lastModified < cutoff
    · cases dryRun
      · cases hd : del o.key <;>
          simp [process_object, h, hd, A02.expiredB, A02.okB, List.filter_cons]
      · simp [process_object, h, A02.expiredB, A02.okB, List.filter_cons]
    · simp [process_object, h, A02.expiredB, List.filter_cons]

theorem foldl_call_trace (cutoff : Int) (dryRun : Bool) (del : String → Option String)
    (objs : List S3Object) :
    ∀ s, (objs.foldl (process_object cutoff dryRun del) s).2
      = s.2 ++ (if dryRun then []
                else (objs.filter (A02.expiredB cutoff)).map (fun o => "delete_object " ++ o.key)) := by
  induction objs with
  | nil => intro s; cases dryRun <;> simp
  | cons o t ih =>
    intro s
    rw [List.foldl_cons, ih]
    by_cases h : o.lastModified < cutoff
    · cases dryRun
      · cases hd : del o.key <;>
          simp [process_object, h, hd, A02.expiredB, List.filter_cons]
      · simp [process_object, h, A02.expiredB, List.filter_cons]
    · simp [process_object, h, A02.expiredB, List.filter_cons]

end Vijay

namespace A04

/-- One snapshot of the `describe_snapshots` response (the fields the
cleanup pass reads, lines 231-236). -/
structure Snapshot where
  snapshot_id : String
  start_time : Int
  description : String
  volume_id : String
  volume_size : Nat
deriving Repr, DecidableEq

/-- One entry of `deleted_snapshots` (lines 247-270; the display field
`age_days` is omitted). -/
structure SnapEntry where
  snapshot_id : String
  volume_id : String
  description : String
  start_time : Int
  volume_size : Nat
  action : FileAction
deriving Repr, DecidableEq

/-- The `cleanup_results` accumulator of `cleanup_old_snapshots`. -/
structure CleanupResults where
  deleted_snapshots : List SnapEntry
  errors : List String
deriving Repr, DecidableEq

/-- Eligibility test of lines 239-240: description starts with the
configured description scope string and the snapshot is strictly older than
the cutoff. -/
def eligibleB (cutoff : Int) (pfx : String) (s : Snapshot) : Bool :=
  s.description.startsWith pfx && decide (s.start_time < cutoff)

/-- Entry appended in dry-run mode (lines 247-255). -/
def wSnapEntry (s : Snapshot) : SnapEntry :=
  ⟨s.snapshot_id, s.volume_id, s.description, s.start_time, s.volume_size,
   FileAction.would_delete⟩

/-- Entry appended after a successful delete (lines 262-270). -/
def dSnapEntry (s : Snapshot) : SnapEntry :=
  ⟨s.snapshot_id, s.volume_id, s.description, s.start_time, s.volume_size,
   FileAction.deleted⟩

/-- Error message shaping of lines 272-280 (the exception text appended in
the generic branch is the raised value itself). -/
def delErrMsg (e : String) (s : Snapshot) : String :=
  if e == "InvalidSnapshot.InUse" then
    "Cannot delete snapshot " ++ s.snapshot_id ++ ": currently in use"
  else "Error deleting snapshot " ++ s.snapshot_id ++ ": " ++ e

/-- Body of the per-snapshot loop of `cleanup_old_snapshots` (lines
231-285). -/
def process_snapshot (cutoff : Int) (pfx : String) (dryRun : Bool)
    (del : String → Option String) (s : CleanupResults × List String)
    (snap : Snapshot) : CleanupResults × List String :=
  if snap.description.startsWith pfx && decide (snap.start_time < cutoff) then
    if dryRun then
      ({ s.1 with deleted_snapshots := s.1.deleted_snapshots ++ [wSnapEntry snap] }, s.2)
    else
      match del snap.snapshot_id with
      | none =>
        ({ s.1 with deleted_snapshots := s.1.deleted_snapshots ++ [dSnapEntry snap] },
         s.2 ++ ["delete_snapshot " ++ snap.snapshot_id])
      | some e =>
        ({ s.1 with errors := s.1.errors ++ [delErrMsg e snap] },
         s.2 ++ ["delete_snapshot " ++ snap.snapshot_id])
  else s

/-- The cleanup pass of assignment_04 (`cleanup_old_snapshots`, lines
215-292): cutoff computed once, then one pass over the account's
snapshots. -/
def cleanup_old_snapshots (now retention_days : Int) (pfx : String) (dryRun : Bool)
    (del : String → Option String) (snaps : List Snapshot) :
    CleanupResults × List String :=
  let cutoff := now - retention_days * 86400
  snaps.foldl (process_snapshot cutoff pfx dryRun del) (⟨[], []⟩, [])

theorem foldl_deleted_snapshots (cutoff : Int) (pfx : String) (dryRun : Bool)
    (del : String → Option String) (snaps : List Snapshot) :
    ∀ s, (snaps.foldl (process_snapshot cutoff pfx dryRun del) s).1.deleted_snapshots
      = s.1.deleted_snapshots
        ++ (if dryRun then (snaps.filter (eligibleB cutoff pfx)).map wSnapEntry
            else ((snaps.filter (eligibleB cutoff pfx)).filter
                (fun t => (del t.snapshot_id).isNone)).map dSnapEntry) := by
  induction snaps with
  | nil => intro s; cases dryRun <;> simp
  | cons o t ih =>
    intro s
    rw [List.foldl_cons, ih]
    by_cases h : (o.description.startsWith pfx && decide (o.start_time < cutoff)) = true
    · cases dryRun
      · cases hd : del o.snapshot_id <;>
          simp [process_snapshot, h, hd, eligibleB, List.filter_cons]
      · simp [process_snapshot, h, eligibleB, List.filter_cons]
    · simp [process_snapshot, h, eligibleB, List.filter_cons]

theorem foldl_snap_errors (cutoff : Int) (pfx : String) (dryRun : Bool)
    (del : String → Option String) (snaps : List Snapshot) :
    ∀ s, (snaps.foldl (process_snapshot cutoff pfx dryRun del) s).1.errors
      = s.1.errors
        ++ (if dryRun then []
            else ((snaps.filter (eligibleB cutoff pfx)).filter
                (fun t => (del t.snapshot_id).isSome)).map
              (fun t => delErrMsg ((del t.snapshot_id).getD "") t)) := by
  induction snaps with
  | nil => intro s; cases dryRun <;> simp
  | cons o t ih =>
    intro s
    rw [List.foldl_cons, ih]
    by_cases h : (o.description.startsWith pfx && decide (o.start_time < cutoff)) = true
    · cases dryRun
      · cases hd : del o.snapshot_id <;>
          simp [process_snapshot, h, hd, eligibleB, List.filter_cons]
      · simp [process_snapshot, h, eligibleB, List.filter_cons]
    · simp [process_snapshot, h, eligibleB, List.filter_cons]

theorem foldl_snap_calls (cutoff : Int) (pfx : String) (dryRun : Bool)
    (del : String → Option String) (snaps : List Snapshot) :
    ∀ s, (snaps.foldl (process_snapshot cutoff pfx dryRun del) s).2
      = s.2 ++ (if dryRun then []
                else (snaps.filter (eligibleB cutoff pfx)).map
                  (fun t => "delete_snapshot " ++ t.snapshot_id)) := by
  induction snaps with
  | nil => intro s; cases dryRun <;> simp
  | cons o t ih =>
    intro s
    rw [List.foldl_cons, ih]
    by_cases h : (o.description.startsWith pfx && decide (o.start_time < cutoff)) = true
    · cases dryRun
      · cases hd : del o.snapshot_id <;>
          simp [process_snapshot, h, hd, eligibleB, List.filter_cons]
      · simp [process_snapshot, h, eligibleB, List.filter_cons]
    · simp [process_snapshot, h, eligibleB, List.filter_cons]

/-- One entry of `snapshots_created` (metadata fields used only for the
report are reduced to the volume, the snapshot id and the action tag). -/
structure CreateEntry where
  volume_id : String
  snapshot_id : String
  action : String
deriving Repr, DecidableEq

/-- The `results` dictionary of the assignment_04 handler (lines 51-60). -/
structure Results where
  snapshots_created : List CreateEntry
  volumes_processed : Nat
  snapshots_deleted : List SnapEntry
  total_snapshots_cleaned : Nat
  errors : List String
deriving Repr, DecidableEq

/-- Initial `results` value. -/
def initResults : Results := ⟨[], 0, [], 0, []⟩

/-- The `create_volume_snapshot` helper (lines 121-213): verify the volume,
then either simulate (dry run) or create and tag a snapshot.  A missing
volume raises, which the caller turns into an error entry; this is modelled
by the `none` result.  `mkSnapId` names the snapshot id the provider would
assign. -/
def create_volume_snapshot (volumeExists : String → Bool) (dryRun : Bool)
    (mkSnapId : String → String) (vol : String) :
    Option CreateEntry × List String :=
  if volumeExists vol then
    if dryRun then
      (some ⟨vol, "dry-run-snapshot-id", "would_create"⟩, ["describe_volumes " ++ vol])
    else
      (some ⟨vol, mkSnapId vol, "created"⟩,
       ["describe_volumes " ++ vol, "create_snapshot " ++ vol, "create_tags " ++ mkSnapId vol])
  else (none, ["describe_volumes " ++ vol])

/-- Handler return value. -/
structure Output where
  statusCode : Nat
  calls : List String
  results : Results
deriving Repr, DecidableEq

/-- The assignment_04 handler (lines 12-119): resolve configuration, reject
an empty volume list with 400 before touching the provider, create a
snapshot per volume (per-volume failures collected in `errors`), then run
the retention cleanup pass over the account's snapshots. -/
def lambda_handler (env : EnvVars) (event : Event) (now : Int)
    (volumeExists : String → Bool) (mkSnapId : String → String)
    (snaps : List Snapshot) (del : String → Option String) : Output :=
  let raw := env.VOLUME_IDS.getD (event.volume_ids.getD "")
  let vols := ((pySplitComma raw).map pyStrip).filter (fun v => !(v == ""))
  let retention := env.RETENTION_DAYS.getD (event.retention_days.getD 30)
  let pfx := env.SNAPSHOT_DESCRIPTION_PFX.getD "AutoSnapshot"
  let dryRun := pyLower (env.DRY_RUN.getD "false") == "true"
  if vols.isEmpty then ⟨400, [], initResults⟩
  else
    let afterCreate := vols.foldl
      (fun (s : Results × List String) vol =>
        match create_volume_snapshot volumeExists dryRun mkSnapId vol with
        | (some entry, calls) =>
          ({ s.1 with
              snapshots_created := s.1.snapshots_created ++ [entry],
              volumes_processed := s.1.volumes_processed + 1 }, s.2 ++ calls)
        | (none, calls) =>
          ({ s.1 with
              errors := s.1.errors ++ ["Error creating snapshot for volume " ++ vol] },
           s.2 ++ calls))
      (initResults, [])
    let cleanup := cleanup_old_snapshots now retention pfx dryRun del snaps
    let r := { afterCreate.1 with
                snapshots_deleted := cleanup.1.deleted_snapshots,
                total_snapshots_cleaned := cleanup.1.deleted_snapshots.length,
                errors := afterCreate.1.errors ++ cleanup.1.errors }
    let snsCalls := if (env.SNS_TOPIC_ARN.getD "") == "" then [] else ["sns_publish"]
    ⟨200, afterCreate.2 ++ ["describe_snapshots"] ++ cleanup.2 ++ snsCalls, r⟩

end A04

namespace A01

/-- One EC2 instance of a `describe_instances` reservation: its id, the
`State.Name`, and its tag list. -/
structure Ec2Instance where
  instance_id : String
  state : String
  tags : List (String × String)
deriving Repr, DecidableEq

/-- Tag lookup of lines 59-63: the value of the first tag whose key is
`Action`, if any. -/
def find_action_tag : List (String × String) → Option String
  | [] => none
  | (k, v) :: rest => if k == "Action" then some v else find_action_tag rest

/-- Selection test for `instances_to_stop` (line 65). -/
def stopP (i : Ec2Instance) : Bool :=
  find_action_tag i.tags == some "Auto-Stop" && i.state == "running"

/-- Selection test for `instances_to_start` (line 67). -/
def startP (i : Ec2Instance) : Bool :=
  find_action_tag i.tags == some "Auto-Start" && i.state == "stopped"

/-- Body of the per-instance classification loop (lines 53-68). -/
def classify_step (acc : List String × List String) (i : Ec2Instance) :
    List String × List String :=
  if find_action_tag i.tags == some "Auto-Stop" && i.state == "running" then
    (acc.1 ++ [i.instance_id], acc.2)
  else if find_action_tag i.tags == some "Auto-Start" && i.state == "stopped" then
    (acc.1, acc.2 ++ [i.instance_id])
  else acc

/-- The candidate-list construction of assignment_01 (lines 49-68), over the
nested reservations structure of `describe_instances`. -/
def classify (reservations : List (List Ec2Instance)) : List String × List String :=
  reservations.foldl (fun acc insts => insts.foldl classify_step acc) ([], [])

theorem foldl_classify (insts : List Ec2Instance) :
    ∀ acc, insts.foldl classify_step acc
      = (acc.1 ++ (insts.filter stopP).map Ec2Instance.instance_id,
         acc.2 ++ (insts.filter startP).map Ec2Instance.instance_id) := by
  induction insts with
  | nil => intro acc; simp
  | cons i t ih =>
    intro acc
    rw [List.foldl_cons, ih]
    by_cases h1 : (find_action_tag i.tags == some "Auto-Stop" && i.state == "running") = true
    · have h2 : startP i = false := by
        have hs : (i.state == "running") = true := (Bool.and_eq_true _ _ |>.mp h1).2
        have hrun : i.state = "running" := by simpa using hs
        simp [startP, hrun]
      simp [classify_step, h1, stopP, h2, List.filter_cons]
    · by_cases h2 : (find_action_tag i.tags == some "Auto-Start" && i.state == "stopped") = true
      · simp [classify_step, h1, h2, stopP, startP, List.filter_cons]
      · simp [classify_step, h1, h2, stopP, startP, List.filter_cons]

/-- The classification over all reservations, flattened. -/
theorem classify_eq (reservations : List (List Ec2Instance)) :
    classify reservations
      = ((reservations.flatten.filter stopP).map Ec2Instance.instance_id,
         (reservations.flatten.filter startP).map Ec2Instance.instance_id) := by
  rw [classify, ← List.foldl_flatten, foldl_classify]
  simp

end A01

theorem length_filter_add_length_filter_not {α : Type} (p : α → Bool) (l : List α) :
    (l.filter p).length + (l.filter (fun a => !(p a))).length = l.length := by
  induction l with
  | nil => rfl
  | cons a t ih => by_cases h : p a = true <;> simp [List.filter_cons, h] <;> omega

/-- Dry-run resolution as the specification words it (environment variable
with event-payload fallback).  Modelled from the spec for comparison with
the handlers' actual resolution code. -/
def dryRunEnvEventFallback (envDRY : Option String) (eventDry : Option Bool)
    (dflt : Bool) : Bool :=
  match envDRY with
  | some s => pyLower s == "true"
  | none => eventDry.getD dflt

/-- C1 counterexample: the vijay-s3-cleanup `files_processed` field does NOT
count all objects listed.  On a listing with one fresh (non-expired) object,
`files_processed` is 0 while the listing has length 1, refuting
`processed_count = |L|` for that handler. -/
theorem claim_C1_counterexample :
    Vijay.files_processed (Vijay.run 0 false (fun _ => none) [[⟨"fresh.txt", 5, 7⟩]]).1
      ≠ ([[(⟨"fresh.txt", 5, 7⟩ : S3Object)]] : List (List S3Object)).flatten.length := by
  decide

/-- C1 (amended): for the assignment_02 handler the sweep satisfies
`files_deleted ≤ expired_count ≤ files_processed = |L|`, with
`files_processed` counting every record seen.  The vijay-s3-cleanup
handler's `files_processed`, however, counts only the records appended to
`deleted_files` — the expired records in dry-run mode, the successfully
deleted ones otherwise — and is therefore only bounded by `|L|`, not equal
to it. -/
theorem claim_C1_amended (cutoff : Int) (dryRun : Bool) (del : String → Option String)
    (pages : List (List S3Object)) :
    (A02.run cutoff dryRun del pages).1.files_deleted
        ≤ (pages.flatten.filter (A02.expiredB cutoff)).length
    ∧ (pages.flatten.filter (A02.expiredB cutoff)).length
        ≤ (A02.run cutoff dryRun del pages).1.files_processed
    ∧ (A02.run cutoff dryRun del pages).1.files_processed = pages.flatten.length
    ∧ Vijay.files_processed (Vijay.run cutoff dryRun del pages).1
        = (if dryRun then (pages.flatten.filter (A02.expiredB cutoff)).length
           else ((pages.flatten.filter (A02.expiredB cutoff)).filter (A02.okB del)).length)
    ∧ Vijay.files_processed (Vijay.run cutoff dryRun del pages).1
        ≤ pages.flatten.length := by
  have hp := A02.foldl_files_processed cutoff dryRun del pages.flatten (A02.initResults, [])
  have hd := A02.foldl_files_deleted cutoff dryRun del pages.flatten (A02.initResults, [])
  have hv := Vijay.foldl_keys cutoff dryRun del pages.flatten (Vijay.initResults, [])
  rw [A02.run_eq_flat, Vijay.run_flat]
  have h0d : (A02.initResults, ([] : List String)).1.files_deleted = 0 := rfl
  have h0p : (A02.initResults, ([] : List String)).1.files_processed = 0 := rfl
  have h0v : (Vijay.initResults, ([] : List String)).1.deleted_files = [] := rfl
  refine ⟨?_, ?_, ?_, ?_, ?_⟩
  · rw [hd, h0d, Nat.zero_add]
    cases dryRun
    · rw [if_neg Bool.false_ne_true]
      exact List.length_filter_le _ _
    · rw [if_pos rfl]
      exact Nat.zero_le _
  · rw [hp, h0p, Nat.zero_add]
    exact List.length_filter_le _ _
  · rw [hp, h0p, Nat.zero_add]
  · rw [Vijay.files_processed, hv, h0v, List.nil_append]
    cases dryRun
    · rw [if_neg Bool.false_ne_true, if_neg Bool.false_ne_true]
      exact List.length_map _ _
    · rw [if_pos rfl, if_pos rfl]
      exact List.length_map _ _
  · rw [Vijay.files_processed, hv, h0v, List.nil_append]
    cases dryRun
    · rw [if_neg Bool.false_ne_true]
      exact le_trans (Nat.le_of_eq (List.length_map _ _))
        (le_trans (List.length_filter_le _ _) (List.length_filter_le _ _))
    · rw [if_pos rfl]
      exact le_trans (Nat.le_of_eq (List.length_map _ _)) (List.length_filter_le _ _)

/-- C2: in all three retention sweeps, a record whose timestamp equals the
cutoff exactly is retained, not expired — expiry requires the timestamp to
be strictly below the cutoff.  Processing such a record leaves the state
unchanged except for assignment_02's `files_processed` counter, and makes
no provider call. -/
theorem claim_C2_boundary_retained (cutoff : Int) (dryRun : Bool)
    (del : String → Option String) (s2 : A02.Results × List String)
    (sv : Vijay.Results × List String) (sa : A04.CleanupResults × List String)
    (key : String) (size : Nat) (sid desc vol : String) (vsize : Nat) (pfx : String) :
    A02.process_object cutoff dryRun del s2 ⟨key, cutoff, size⟩
        = ({ s2.1 with files_processed := s2.1.files_processed + 1 }, s2.2)
    ∧ Vijay.process_object cutoff dryRun del sv ⟨key, cutoff, size⟩ = sv
    ∧ A04.process_snapshot cutoff pfx dryRun del sa ⟨sid, cutoff, desc, vol, vsize⟩ = sa := by
  refine ⟨?_, ?_, ?_⟩ <;>
    simp [A02.process_object, Vijay.process_object, A04.process_snapshot]

/-- C3: with `dry_run = true` no sweep ever performs a provider delete call
(the call traces are empty), assignment_02 returns `files_deleted = 0`, and
every reported expired record carries action `would_delete` — for every
listing, including ones with a non-empty expired set. -/
theorem claim_C3_dry_run_no_delete (cutoff now retention : Int)
    (del : String → Option String) (pages : List (List S3Object))
    (pfx : String) (snaps : List A04.Snapshot) :
    (A02.run cutoff true del pages).2 = []
    ∧ (A02.run cutoff true del pages).1.files_deleted = 0
    ∧ (∀ e ∈ (A02.run cutoff true del pages).1.deleted_files,
        e.action = FileAction.would_delete)
    ∧ (Vijay.run cutoff true del pages).2 = []
    ∧ (A04.cleanup_old_snapshots now retention pfx true del snaps).2 = []
    ∧ (∀ e ∈ (A04.cleanup_old_snapshots now retention pfx true del snaps).1.deleted_snapshots,
        e.action = FileAction.would_delete) := by
  rw [A02.run_eq_flat, Vijay.run_flat]
  refine ⟨?_, ?_, ?_, ?_, ?_, ?_⟩
  · rw [A02.foldl_calls cutoff true del pages.flatten (A02.initResults, [])]
    simp [A02.initResults]
  · rw [A02.foldl_files_deleted cutoff true del pages.flatten (A02.initResults, [])]
    simp [A02.initResults]
  · rw [A02.foldl_deleted_files cutoff true del pages.flatten (A02.initResults, [])]
    simp only [A02.initResults, if_pos, List.nil_append]
    intro e he
    rcases List.mem_map.mp he with ⟨o, _, rfl⟩
    rfl
  · rw [Vijay.foldl_call_trace cutoff true del pages.flatten (Vijay.initResults, [])]
    simp [Vijay.initResults]
  · rw [A04.cleanup_old_snapshots,
      A04.foldl_snap_calls (now - retention * 86400) pfx true del snaps (⟨[], []⟩, [])]
    simp
  · rw [A04.cleanup_old_snapshots,
      A04.foldl_deleted_snapshots (now - retention * 86400) pfx true del snaps (⟨[], []⟩, [])]
    simp only [if_pos, List.nil_append]
    intro e he
    rcases List.mem_map.mp he with ⟨o, _, rfl⟩
    rfl

/-- C4: partial-failure tolerance of the non-dry sweeps.  For assignment_02:
the error list holds exactly one entry per expired record whose delete
failed, the `deleted_files` report holds exactly the successfully deleted
records (a failed record is never reported with action `deleted`),
`files_deleted` plus the number of failures equals the number of expired
records, and every listed record is still processed.  The analogous
characterization holds for assignment_04's cleanup pass. -/
theorem claim_C4_partial_failure (cutoff now retention : Int)
    (del : String → Option String) (pages : List (List S3Object))
    (pfx : String) (snaps : List A04.Snapshot) :
    (A02.run cutoff false del pages).1.errors
        = ((pages.flatten.filter (A02.expiredB cutoff)).filter
            (fun o => (del o.key).isSome)).map (A02.errMsg del)
    ∧ (A02.run cutoff false del pages).1.deleted_files
        = ((pages.flatten.filter (A02.expiredB cutoff)).filter (A02.okB del)).map A02.dEntry
    ∧ (A02.run cutoff false del pages).1.files_deleted
          + ((A02.run cutoff false del pages).1.errors).length
        = (pages.flatten.filter (A02.expiredB cutoff)).length
    ∧ (A02.run cutoff false del pages).1.files_processed = pages.flatten.length
    ∧ (A04.cleanup_old_snapshots now retention pfx false del snaps).1.errors
        = ((snaps.filter (A04.eligibleB (now - retention * 86400) pfx)).filter
            (fun t => (del t.snapshot_id).isSome)).map
          (fun t => A04.delErrMsg ((del t.snapshot_id).getD "") t)
    ∧ (A04.cleanup_old_snapshots now retention pfx false del snaps).1.deleted_snapshots
        = ((snaps.filter (A04.eligibleB (now - retention * 86400) pfx)).filter
            (fun t => (del t.snapshot_id).isNone)).map A04.dSnapEntry
    ∧ ((A04.cleanup_old_snapshots now retention pfx false del snaps).1.deleted_snapshots).length
          + ((A04.cleanup_old_snapshots now retention pfx false del snaps).1.errors).length
        = (snaps.filter (A04.eligibleB (now - retention * 86400) pfx)).length := by
  have he := A02.foldl_errors cutoff false del pages.flatten (A02.initResults, [])
  have hd := A02.foldl_deleted_files cutoff false del pages.flatten (A02.initResults, [])
  have hf := A02.foldl_files_deleted cutoff false del pages.flatten (A02.initResults, [])
  have hp := A02.foldl_files_processed cutoff false del pages.flatten (A02.initResults, [])
  have hse := A04.foldl_snap_errors (now - retention * 86400) pfx false del snaps (⟨[], []⟩, [])
  have hsd := A04.foldl_deleted_snapshots (now - retention * 86400) pfx false del snaps
    (⟨[], []⟩, [])
  rw [A02.run_eq_flat]
  have hsplit : ∀ (L : List S3Object),
      (L.filter (A02.okB del)).length
        + (L.filter (fun o => (del o.key).isSome)).length = L.length := by
    intro L
    have hq : L.filter (fun o => (del o.key).isSome)
        = L.filter (fun o => !(A02.okB del o)) := by
      apply List.filter_congr
      intro o _
      cases hdo : del o.key <;> simp [A02.okB, hdo]
    rw [hq]
    exact length_filter_add_length_filter_not (A02.okB del) L
  refine ⟨?_, ?_, ?_, ?_, ?_, ?_, ?_⟩
  · rw [he]; simp [A02.initResults]
  · rw [hd]; simp [A02.initResults]
  · rw [hf, he]
    simp only [A02.initResults, if_neg Bool.false_ne_true, List.nil_append, Nat.zero_add,
      List.length_map]
    exact hsplit _
  · rw [hp]; simp [A02.initResults]
  · rw [A04.cleanup_old_snapshots, hse]; simp
  · rw [A04.cleanup_old_snapshots, hsd]; simp
  · rw [A04.cleanup_old_snapshots, hsd, hse]
    simp only [if_neg Bool.false_ne_true, List.nil_append, List.length_map]
    have hq : ∀ (L : List A04.Snapshot),
        (L.filter (fun t => (del t.snapshot_id).isSome)).length
          = (L.filter (fun t => !((del t.snapshot_id).isNone))).length := by
      intro L
      congr 1
      apply List.filter_congr
      intro t _
      cases hdt : del t.snapshot_id <;> simp [hdt]
    rw [hq]
    exact length_filter_add_length_filter_not
      (fun (t : A04.Snapshot) => (del t.snapshot_id).isNone) _

/-- C5: an invocation missing its required configuration (no `BUCKET_NAME`
for the storage-cleanup handlers, no `VOLUME_IDS` for the snapshot handler,
in both the environment and the event) returns `statusCode` 400 with an
empty provider-call trace: the provider is never contacted. -/
theorem claim_C5_missing_config_400 (env : EnvVars) (event : Event) (now : Int)
    (w : S3World) (del : String → Option String) (volumeExists : String → Bool)
    (mkSnapId : String → String) (snaps : List A04.Snapshot)
    (hb1 : env.BUCKET_NAME = none) (hb2 : event.bucket_name = none)
    (hv1 : env.VOLUME_IDS = none) (hv2 : event.volume_ids = none) :
    (A02.lambda_handler env event now w del).statusCode = 400
    ∧ (A02.lambda_handler env event now w del).calls = []
    ∧ (Vijay.lambda_handler env event now w del).statusCode = 400
    ∧ (Vijay.lambda_handler env event now w del).calls = []
    ∧ (A04.lambda_handler env event now volumeExists mkSnapId snaps del).statusCode = 400
    ∧ (A04.lambda_handler env event now volumeExists mkSnapId snaps del).calls = [] := by
  refine ⟨?_, ?_, ?_, ?_, ?_, ?_⟩ <;>
    simp [A02.lambda_handler, Vijay.lambda_handler, A04.lambda_handler, hb1, hb2, hv1, hv2,
      Option.or, pySplitComma, pySplitCommaAux, pyStrip]

/-- C5 witness: with every configuration source absent, all three handlers
return 400 and make no provider call. -/
theorem claim_C5_missing_config_400_witness :
    (A02.lambda_handler ⟨none, none, none, none, none, none⟩ ⟨none, none, none, none⟩ 0
        ⟨true, []⟩ (fun _ => none)).statusCode = 400
    ∧ (A02.lambda_handler ⟨none, none, none, none, none, none⟩ ⟨none, none, none, none⟩ 0
        ⟨true, []⟩ (fun _ => none)).calls = []
    ∧ (Vijay.lambda_handler ⟨none, none, none, none, none, none⟩ ⟨none, none, none, none⟩ 0
        ⟨true, []⟩ (fun _ => none)).statusCode = 400
    ∧ (Vijay.lambda_handler ⟨none, none, none, none, none, none⟩ ⟨none, none, none, none⟩ 0
        ⟨true, []⟩ (fun _ => none)).calls = []
    ∧ (A04.lambda_handler ⟨none, none, none, none, none, none⟩ ⟨none, none, none, none⟩ 0
        (fun _ => true) (fun v => v) [] (fun _ => none)).statusCode = 400
    ∧ (A04.lambda_handler ⟨none, none, none, none, none, none⟩ ⟨none, none, none, none⟩ 0
        (fun _ => true) (fun v => v) [] (fun _ => none)).calls = [] :=
  claim_C5_missing_config_400 _ _ 0 _ _ _ _ [] rfl rfl rfl rfl

/-- C6 counterexample: the claim fails for vijay-s3-cleanup.  With a
configured bucket that does not exist, that handler returns 500, not 404
(its listing call raises and the generic exception path answers). -/
theorem claim_C6_counterexample :
    (Vijay.lambda_handler ⟨some "vijay-bucket", none, none, none, none, none⟩
        ⟨none, none, none, none⟩ 0 ⟨false, []⟩ (fun _ => none)).statusCode = 500
    ∧ (Vijay.lambda_handler ⟨some "vijay-bucket", none, none, none, none, none⟩
        ⟨none, none, none, none⟩ 0 ⟨false, []⟩ (fun _ => none)).statusCode ≠ 404 := by
  constructor <;> decide

/-- C6 (amended): when the referenced bucket does not exist, the
assignment_02 handler returns 404 (it probes with `head_bucket` first),
while the vijay-s3-cleanup handler returns 500 (no existence probe; the
failure surfaces through its generic exception handler). -/
theorem claim_C6_amended (env : EnvVars) (event : Event) (now : Int) (w : S3World)
    (del : String → Option String) (b : String)
    (hb : env.BUCKET_NAME = some b) (hne : (b == "") = false)
    (hw : w.bucketExists = false) :
    (A02.lambda_handler env event now w del).statusCode = 404
    ∧ (Vijay.lambda_handler env event now w del).statusCode = 500 := by
  constructor
  · simp [A02.lambda_handler, hb, hne, hw]
  · simp [Vijay.lambda_handler, Option.or, hb, hne, hw]

/-- C6 amended witness at a concrete missing bucket. -/
theorem claim_C6_amended_witness :
    (A02.lambda_handler ⟨some "b", none, none, none, none, none⟩ ⟨none, none, none, none⟩ 0
        ⟨false, []⟩ (fun _ => none)).statusCode = 404
    ∧ (Vijay.lambda_handler ⟨some "b", none, none, none, none, none⟩ ⟨none, none, none, none⟩ 0
        ⟨false, []⟩ (fun _ => none)).statusCode = 500 :=
  claim_C6_amended _ _ 0 _ _ "b" rfl (by decide) rfl

/-- C7 counterexample: assignment_02 does not fall back to the event's
`dry_run` field.  With `DRY_RUN` unset in the environment and
`dry_run = true` in the event, the spec's fallback resolution yields `true`,
yet the handler actually deletes an expired object (one `delete_object`
call, `files_deleted = 1`): it resolved `dry_run` to `false`. -/
theorem claim_C7_counterexample :
    dryRunEnvEventFallback none (some true) false = true
    ∧ (A02.lambda_handler ⟨some "b", none, none, none, none, none⟩
        ⟨none, none, some true, none⟩ 2592001 ⟨true, [[⟨"old.txt", 0, 4⟩]]⟩
        (fun _ => none)).results.files_deleted = 1
    ∧ (A02.lambda_handler ⟨some "b", none, none, none, none, none⟩
        ⟨none, none, some true, none⟩ 2592001 ⟨true, [[⟨"old.txt", 0, 4⟩]]⟩
        (fun _ => none)).calls
      = ["head_bucket", "list_objects_v2", "delete_object old.txt"] := by
  refine ⟨by decide, by decide, by decide⟩

/-- C7 (amended): the vijay-s3-cleanup handler resolves `dry_run` from the
`DRY_RUN` environment variable with fallback to the event's `dry_run`
field (default `true`), exactly as the spec describes; the assignment_02
handler instead ignores the event's `dry_run` entirely — its result depends
on the event only through `bucket_name` and `retention_days`. -/
theorem claim_C7_amended (env : EnvVars) (event : Event) (e1 e2 : Event) (now : Int)
    (w : S3World) (del : String → Option String)
    (hb : e1.bucket_name = e2.bucket_name) (hr : e1.retention_days = e2.retention_days) :
    Vijay.DRY_RUN_value env event
        = dryRunEnvEventFallback env.DRY_RUN event.dry_run true
    ∧ A02.lambda_handler env e1 now w del = A02.lambda_handler env e2 now w del := by
  constructor
  · cases henv : env.DRY_RUN with
    | some s => simp [Vijay.DRY_RUN_value, dryRunEnvEventFallback, henv]
    | none =>
      cases hev : event.dry_run with
      | none =>
        simp only [Vijay.DRY_RUN_value, dryRunEnvEventFallback, henv, hev, Option.getD_none]
        decide
      | some b =>
        cases b <;>
          simp only [Vijay.DRY_RUN_value, dryRunEnvEventFallback, henv, hev,
            Option.getD_none, Option.getD_some] <;>
          decide
  · simp only [A02.lambda_handler, hb, hr]

/-- C7 amended witness: concrete environments and two events differing only
in `dry_run`. -/
theorem claim_C7_amended_witness :
    Vijay.DRY_RUN_value ⟨none, none, none, none, none, none⟩ ⟨none, none, some true, none⟩
        = dryRunEnvEventFallback none (some true) true
    ∧ A02.lambda_handler ⟨none, none, none, none, none, none⟩
        ⟨some "b", some 5, some true, none⟩ 0 ⟨true, []⟩ (fun _ => none)
      = A02.lambda_handler ⟨none, none, none, none, none, none⟩
        ⟨some "b", some 5, some false, none⟩ 0 ⟨true, []⟩ (fun _ => none) :=
  claim_C7_amended ⟨none, none, none, none, none, none⟩ ⟨none, none, some true, none⟩
    ⟨some "b", some 5, some true, none⟩ ⟨some "b", some 5, some false, none⟩ 0
    ⟨true, []⟩ (fun _ => none) rfl rfl

/-- C8: the snapshot cleanup pass only ever acts on snapshots whose
description starts with the configured description scope string: every
reported (deleted or would-delete) entry has such a description, and every
`delete_snapshot` provider call targets a snapshot from the listing whose
description matches — snapshots without the scope string are never acted
upon, regardless of age. -/
theorem claim_C8_scope_by_description (now retention : Int) (pfx : String)
    (dryRun : Bool) (del : String → Option String) (snaps : List A04.Snapshot) :
    (∀ e ∈ (A04.cleanup_old_snapshots now retention pfx dryRun del snaps).1.deleted_snapshots,
        e.description.startsWith pfx = true)
    ∧ (∀ c ∈ (A04.cleanup_old_snapshots now retention pfx dryRun del snaps).2,
        ∃ s, s ∈ snaps ∧ s.description.startsWith pfx = true
          ∧ c = "delete_snapshot " ++ s.snapshot_id) := by
  have hsd := A04.foldl_deleted_snapshots (now - retention * 86400) pfx dryRun del snaps
    (⟨[], []⟩, [])
  have hsc := A04.foldl_snap_calls (now - retention * 86400) pfx dryRun del snaps (⟨[], []⟩, [])
  have helig : ∀ s ∈ snaps.filter (A04.eligibleB (now - retention * 86400) pfx),
      s.description.startsWith pfx = true := by
    intro s hs
    have h := (List.mem_filter.mp hs).2
    have h2 : s.description.startsWith pfx = true
        ∧ s.start_time < now - retention * 86400 := by
      simpa [A04.eligibleB] using h
    exact h2.1
  constructor
  · rw [A04.cleanup_old_snapshots, hsd]
    cases dryRun
    · rw [if_neg Bool.false_ne_true]
      simp only [List.nil_append]
      intro e he
      rcases List.mem_map.mp he with ⟨s, hs, rfl⟩
      exact helig s (List.mem_filter.mp hs).1
    · rw [if_pos rfl]
      simp only [List.nil_append]
      intro e he
      rcases List.mem_map.mp he with ⟨s, hs, rfl⟩
      exact helig s hs
  · rw [A04.cleanup_old_snapshots, hsc]
    cases dryRun
    · rw [if_neg Bool.false_ne_true]
      simp only [List.nil_append]
      intro c hc
      rcases List.mem_map.mp hc with ⟨s, hs, rfl⟩
      exact ⟨s, (List.mem_filter.mp hs).1, helig s hs, rfl⟩
    · rw [if_pos rfl]
      simp

/-- C9: in the assignment_02 handler a dry run changes only the
`deleted_files` report and the `files_processed` counter: `files_deleted`
and `total_size_deleted` stay 0 and `errors` stays empty for every listing,
even when `deleted_files` is non-empty. -/
theorem claim_C9_a02_dry_run_frame (cutoff : Int) (del : String → Option String)
    (pages : List (List S3Object)) :
    (A02.run cutoff true del pages).1.files_deleted = 0
    ∧ (A02.run cutoff true del pages).1.total_size_deleted = 0
    ∧ (A02.run cutoff true del pages).1.errors = [] := by
  rw [A02.run_eq_flat]
  refine ⟨?_, ?_, ?_⟩
  · rw [A02.foldl_files_deleted cutoff true del pages.flatten (A02.initResults, [])]
    simp [A02.initResults]
  · rw [A02.foldl_total_size cutoff true del pages.flatten (A02.initResults, [])]
    simp [A02.initResults]
  · rw [A02.foldl_errors cutoff true del pages.flatten (A02.initResults, [])]
    simp [A02.initResults]

/-- C10: in the EC2 tag handler, an id enters the stop list only for an
instance with Action tag `Auto-Stop` in state `running`, enters the start
list only for an instance with Action tag `Auto-Start` in state `stopped`,
and (instance ids of a described listing being unique) no id is in both
lists. -/
theorem claim_C10_stop_start_disjoint (reservations : List (List A01.Ec2Instance))
    (h : (reservations.flatten.map A01.Ec2Instance.instance_id).Nodup) :
    (∀ x ∈ (A01.classify reservations).1,
        ∃ i, i ∈ reservations.flatten ∧ i.instance_id = x
          ∧ A01.find_action_tag i.tags = some "Auto-Stop" ∧ i.state = "running")
    ∧ (∀ x ∈ (A01.classify reservations).2,
        ∃ i, i ∈ reservations.flatten ∧ i.instance_id = x
          ∧ A01.find_action_tag i.tags = some "Auto-Start" ∧ i.state = "stopped")
    ∧ (∀ x, x ∈ (A01.classify reservations).1 → x ∉ (A01.classify reservations).2) := by
  rw [A01.classify_eq]
  refine ⟨?_, ?_, ?_⟩
  · intro x hx
    rcases List.mem_map.mp hx with ⟨i, hi, rfl⟩
    have hef := List.mem_filter.mp hi
    have h1 : A01.find_action_tag i.tags = some "Auto-Stop" ∧ i.state = "running" := by
      simpa [A01.stopP] using hef.2
    exact ⟨i, hef.1, rfl, h1.1, h1.2⟩
  · intro x hx
    rcases List.mem_map.mp hx with ⟨i, hi, rfl⟩
    have hef := List.mem_filter.mp hi
    have h1 : A01.find_action_tag i.tags = some "Auto-Start" ∧ i.state = "stopped" := by
      simpa [A01.startP] using hef.2
    exact ⟨i, hef.1, rfl, h1.1, h1.2⟩
  · intro x hx1 hx2
    rcases List.mem_map.mp hx1 with ⟨i, hi, hxi⟩
    rcases List.mem_map.mp hx2 with ⟨j, hj, hxj⟩
    have hif := List.mem_filter.mp hi
    have hjf := List.mem_filter.mp hj
    have hij : i = j := List.inj_on_of_nodup_map h hif.1 hjf.1 (hxi.trans hxj.symm)
    have hsi : A01.find_action_tag i.tags = some "Auto-Stop" ∧ i.state = "running" := by
      simpa [A01.stopP] using hif.2
    have hsj : A01.find_action_tag j.tags = some "Auto-Start" ∧ j.state = "stopped" := by
      simpa [A01.startP] using hjf.2
    have hrun : i.state = "running" := hsi.2
    have hstop : j.state = "stopped" := hsj.2
    rw [hij] at hrun
    rw [hrun] at hstop
    exact absurd hstop (by decide)

/-- C10 witness: a concrete pair of described instances with unique ids;
the Auto-Stop candidate is not in the start list. -/
theorem claim_C10_stop_start_disjoint_witness :
    ([[(⟨"i-1", "running", [("Action", "Auto-Stop")]⟩ : A01.Ec2Instance),
       ⟨"i-2", "stopped", [("Action", "Auto-Start")]⟩]].flatten.map
        A01.Ec2Instance.instance_id).Nodup
    ∧ "i-1" ∉ (A01.classify [[⟨"i-1", "running", [("Action", "Auto-Stop")]⟩,
        ⟨"i-2", "stopped", [("Action", "Auto-Start")]⟩]]).2 :=
  ⟨by decide,
   (claim_C10_stop_start_disjoint
      [[⟨"i-1", "running", [("Action", "Auto-Stop")]⟩,
        ⟨"i-2", "stopped", [("Action", "Auto-Start")]⟩]] (by decide)).2.2 "i-1" (by decide)⟩
